import Mathlib

/-!
Verification of the tenant-scoped retrieval engine of the `ifaq` repository.

The definitions below are a shallow embedding of the RAG chatbot handler
`handleChatbotQuery` in `src/ifaqai/src/api/server/chatbotService.ts`,
together with the pieces of `src/ifaqai/src/api/server/userService.ts` it
calls (`getUserByUsername` and the row-to-user name computation).

Modelling conventions:
- Query parameters that may be absent are `Option String`; JavaScript
  string truthiness (`""` is falsy) is made explicit by `strTruthy`/`jsOr`.
- Database ids are naturals.  A tenant identifier travelling as a string
  (`c.req.query('userId')`, or `userId.toString()` after a username lookup)
  is a `String`; the SQLite comparison `user_id = ?` with its affinity
  conversion is modelled by `idMatch` (parse the string, compare numerically),
  while the metadata filter of step 2.5 compares the strings themselves,
  exactly as `metadata?.userId?.toString() === chatbotOwnerId?.toString()` does.
- A vector-index match carries the string form of its metadata `userId`
  when that field is present, `none` when the metadata or the field is absent.
- The external services (embedding model, vector index, D1 failures, LLM)
  are oracles: one `Oracle` value fixes the outcome of each call of the
  single request, mirroring the `try`/`catch` structure of the source.
- Row timestamps are naturals ordered like the ISO date strings they stand for.
- The handler result records, besides the HTTP-visible fields, the composed
  message list and the ordered trace of gateway calls the request performed
  (the test-double instrumentation the spec itself asks for).
-/

namespace IFaq

/-- Whitespace trimming of `'...'.trim()`, spelled out on the character list
so that concrete instances evaluate inside the kernel. -/
def jsTrim (s : String) : String :=
  String.mk (((s.data.dropWhile Char.isWhitespace).reverse.dropWhile Char.isWhitespace).reverse)

/-- Decimal parse of a string, spelled out on the character list so that
concrete instances evaluate inside the kernel: `some n` exactly when the
string is a non-empty run of digits. -/
def strToNat? (s : String) : Option Nat :=
  if s.data ≠ [] ∧ s.data.all (fun c => c.isDigit) then
    some (s.data.foldl (fun n c => n * 10 + (c.toNat - 48)) 0)
  else none

/-- JavaScript truthiness on an optional string: `undefined` and `""` are falsy. -/
def strTruthy : Option String → Option String
  | some s => if s = "" then none else some s
  | none => none

/-- JavaScript `a || b` for an optional string `a` and a string default `b`. -/
def jsOr (a : Option String) (b : String) : String :=
  match a with
  | some s => if s = "" then b else s
  | none => b

/-- A row of the `Users` table. -/
structure DbUser where
  user_id : Nat
  email : String
  user_name : String
  first_name : Option String
  last_name : Option String
  user_bio : Option String
deriving DecidableEq, Repr

/-- A row of the `FAQs` table (`DbFaq` in `chatbotService.ts`), with the
creation timestamp as a natural number ordered like the stored date string. -/
structure DbFaq where
  faq_id : Nat
  user_id : Nat
  question : String
  answer : String
  created_at : Nat
deriving DecidableEq, Repr

/-- The D1 database state: the two tables the pipeline reads. -/
structure Db where
  users : List DbUser
  faqs : List DbFaq
deriving DecidableEq, Repr

/-- SQLite comparison `user_id = ?` between an INTEGER column and a bound
tenant-id parameter in string form: affinity converts the text to a number
when possible, and a non-numeric text never equals an integer. -/
def idMatch (param : String) (col : Nat) : Bool :=
  strToNat? param == some col

/-- Name computation of `dbUserToUser` in `userService.ts`:
`` `${first_name || ''} ${last_name || ''}`.trim() || email.split('@')[0] ``. -/
def fullNameOf (u : DbUser) : String :=
  let fn := u.first_name.getD ""
  let ln := u.last_name.getD ""
  let full := jsTrim (fn ++ " " ++ ln)
  if full = "" then String.mk (u.email.data.takeWhile (fun c => c ≠ '@')) else full

/-- `getUserByUsername` of `userService.ts`: first `Users` row whose
`user_name` column equals the given username. -/
def getUserByUsername (db : Db) (username : String) : Option DbUser :=
  db.users.find? (fun u => u.user_name = username)

/-- The chatbot-owner profile the handler keeps for prompt personalization. -/
structure OwnerProfile where
  name : String
  username : String
  bio : Option String
deriving DecidableEq, Repr

/-- Profile built in the username branch of the handler from the `User`
object returned by `getUserByUsername`. -/
def profileFromUser (row : DbUser) : OwnerProfile :=
  { name := fullNameOf row
    username := row.user_name
    bio := strTruthy row.user_bio }

/-- Profile built in the userId branch of the handler from the raw row:
`[first_name, last_name].filter(Boolean).join(' ') || user_name`. -/
def profileFromRow (row : DbUser) : OwnerProfile :=
  let parts := (([row.first_name, row.last_name].filterMap id).filter (fun s => s ≠ ""))
  let joined := String.intercalate " " parts
  { name := if joined = "" then row.user_name else joined
    username := row.user_name
    bio := strTruthy row.user_bio }

/-- One vector-index match: point id (numeric form), similarity score, and
the string form of the metadata `userId` when present. -/
structure VMatch where
  id : Nat
  score : Int
  metadata : Option String
deriving DecidableEq, Repr

/-- Outcome of the `AI.run` embedding call of step 1. -/
inductive EmbedOutcome
  | ok (vec : List Int)
  | asyncResp
  | noData
  | errored
deriving DecidableEq, Repr

/-- Outcome of the `VECTOR_INDEX.query` call of step 2. -/
inductive SearchOutcome
  | ok (found : List VMatch)
  | errored
deriving DecidableEq, Repr

/-- Outcome of the `AI.run` generation call of step 6: a response object with
an optional `response` string, or a thrown error. -/
inductive LlmOutcome
  | ok (resp : Option String)
  | errored
deriving DecidableEq, Repr

/-- The behaviour of every external call for one request. -/
structure Oracle where
  embed : EmbedOutcome
  search : SearchOutcome
  byIdsFails : Bool
  recentFails : Bool
  llm : LlmOutcome
deriving DecidableEq, Repr

/-- The query parameters of one chatbot request. -/
structure ChatReq where
  text : Option String
  question : Option String
  userId : Option String
  username : Option String
deriving DecidableEq, Repr

/-- A gateway call, for the call trace of the request. -/
inductive GCall
  | userByUsername
  | userById
  | embedText
  | vectorSearch
  | faqByIds
  | faqRecent
  | llmGenerate
deriving DecidableEq, Repr

/-- One message of the composed LLM conversation. -/
structure Msg where
  role : String
  content : String
deriving DecidableEq, Repr

/-- The observable outcome of one request: the HTTP-level fields plus the
composed messages, retrieved rows and the gateway-call trace. -/
structure ChatOutcome where
  status : Nat
  errorMsg : Option String
  answer : Option String
  contextUsed : Option Bool
  faqsUsed : Option Nat
  faqs : List DbFaq
  messages : List Msg
  calls : List GCall
deriving DecidableEq, Repr

/-- An error response `c.json({ error: msg }, status)`. -/
def errOutcome (status : Nat) (msg : String) (calls : List GCall) : ChatOutcome :=
  { status := status, errorMsg := some msg, answer := none, contextUsed := none
    faqsUsed := none, faqs := [], messages := [], calls := calls }

/-- The question string: `c.req.query('text') || c.req.query('question') || ''`. -/
def questionOf (req : ChatReq) : String :=
  jsOr req.text (jsOr req.question "")

/-- Result of the tenant-resolution block (lines 41 to 71 of the handler). -/
inductive ResolveR
  | notFound
  | missing (calls : List GCall)
  | ok (ownerId : String) (profile : Option OwnerProfile) (calls : List GCall)
deriving DecidableEq, Repr

/-- Tenant resolution of the handler: the username branch looks the owner up
and fails with not-found when absent; an explicit userId is taken as is (a
profile row is fetched for personalization only, with no existence check);
when both parameters are given neither branch runs; the final
`if (!chatbotOwnerId)` yields the missing-identifier client error. -/
def resolveOwner (db : Db) (req : ChatReq) : ResolveR :=
  match strTruthy req.userId, strTruthy req.username with
  | none, some uname =>
    match getUserByUsername db uname with
    | none => ResolveR.notFound
    | some row =>
      if row.user_id = 0 then ResolveR.missing [GCall.userByUsername]
      else ResolveR.ok (Nat.repr row.user_id) (some (profileFromUser row)) [GCall.userByUsername]
  | some oid, none =>
    match db.users.find? (fun u => idMatch oid u.user_id) with
    | some row => ResolveR.ok oid (some (profileFromRow row)) [GCall.userById]
    | none => ResolveR.ok oid none [GCall.userById]
  | some oid, some _ => ResolveR.ok oid none []
  | none, none => ResolveR.missing []

/-- Step 2 result seen by the filter: a thrown search error was replaced by
`{ matches: [] }` in the catch block. -/
def matchesOf : SearchOutcome → List VMatch
  | SearchOutcome.ok ms => ms
  | SearchOutcome.errored => []

/-- Step 2.5: keep the matches whose metadata userId string equals the owner
id string, truncate to the top 5, and take their point ids. -/
def filterIds (ms : List VMatch) (oid : String) : List Nat :=
  if ms.isEmpty then []
  else ((ms.filter (fun m => m.metadata == some oid)).take 5).map (fun m => m.id)

/-- Ascending order on `faq_id`, the `ORDER BY faq_id` of the step 3 query. -/
def faqIdLe (a b : DbFaq) : Prop := a.faq_id ≤ b.faq_id

instance : DecidableRel faqIdLe :=
  fun a b => inferInstanceAs (Decidable (a.faq_id ≤ b.faq_id))

instance : IsTotal DbFaq faqIdLe := ⟨fun a b => Nat.le_total a.faq_id b.faq_id⟩

instance : IsTrans DbFaq faqIdLe := ⟨fun _ _ _ => Nat.le_trans⟩

/-- Descending order on `created_at`, the `ORDER BY created_at DESC` of the
fallback query. -/
def recencyGe (a b : DbFaq) : Prop := b.created_at ≤ a.created_at

instance : DecidableRel recencyGe :=
  fun a b => inferInstanceAs (Decidable (b.created_at ≤ a.created_at))

instance : IsTotal DbFaq recencyGe := ⟨fun a b => Nat.le_total b.created_at a.created_at⟩

instance : IsTrans DbFaq recencyGe := ⟨fun _ _ _ h h2 => Nat.le_trans h2 h⟩

/-- The step 3 semantic read:
`SELECT ... WHERE faq_id IN (...) AND user_id = ? ORDER BY faq_id`. -/
def faqGetByIds (db : Db) (ids : List Nat) (oid : String) : List DbFaq :=
  List.insertionSort faqIdLe
    (db.faqs.filter (fun r => ids.contains r.faq_id && idMatch oid r.user_id))

/-- The fallback read:
`SELECT ... WHERE user_id = ? ORDER BY created_at DESC LIMIT limit`. -/
def faqGetRecent (db : Db) (oid : String) (limit : Nat) : List DbFaq :=
  (List.insertionSort recencyGe (db.faqs.filter (fun r => idMatch oid r.user_id))).take limit

/-- One context line `Q: ...\nA: ...` of the step 4 context block. -/
def faqLine (f : DbFaq) : String :=
  "Q: " ++ f.question ++ "\nA: " ++ f.answer

/-- The step 4 context block for a non-empty retrieved list. -/
def contextBlock (faqs : List DbFaq) : String :=
  "Context from knowledge base:\n" ++ String.intercalate "\n\n" (faqs.map faqLine)

/-- Step 5: `chatbotOwnerProfile?.name || 'the owner'`. -/
def ownerNameOf (p : Option OwnerProfile) : String :=
  match p with
  | some pr => if pr.name = "" then "the owner" else pr.name
  | none => "the owner"

/-- Step 5: the `About ...` line added when the profile has a truthy bio. -/
def ownerCtxOf (p : Option OwnerProfile) : String :=
  match p with
  | some pr =>
    match pr.bio with
    | some b => if b = "" then "" else "\n\nAbout " ++ ownerNameOf p ++ ": " ++ b
    | none => ""
  | none => ""

/-- The system prompt used when at least one entry was retrieved. -/
def promptWithContext (name ctx : String) : String :=
  "You are " ++ name ++ "\x27s AI assistant. You are trained to answer questions based on "
    ++ name ++ "\x27s knowledge base." ++ ctx
    ++ "\n\nUse the context provided from the knowledge base to answer the user\x27s question. \nIf the context contains relevant information, use it to provide a detailed and accurate answer in "
    ++ name
    ++ "\x27s voice and style.\nIf the context doesn\x27t contain relevant information, politely let the user know that you don\x27t have that information in "
    ++ name ++ "\x27s knowledge base, but you can try to help with general questions."

/-- The apologetic system prompt used when no entry was retrieved. -/
def promptNoContext (name ctx : String) : String :=
  "You are " ++ name ++ "\x27s AI assistant." ++ ctx
    ++ "\n\nThe user is asking a question, but there is no relevant information in "
    ++ name
    ++ "\x27s knowledge base. \nPolitely let the user know that you don\x27t have specific information about that topic in "
    ++ name ++ "\x27s knowledge base, but you can try to help with general questions."

/-- Step 6: the answer string for each generation-call outcome, with the two
in-character apology strings of the source. -/
def answerOf : LlmOutcome → String
  | LlmOutcome.ok r =>
    match r with
    | some s =>
      if s = "" then "I apologize, but I could not generate a response." else s
    | none => "I apologize, but I could not generate a response."
  | LlmOutcome.errored =>
    "I\x27m sorry, I encountered an error while processing your question. Please try again later."

/-- Steps 4 to 6 of the handler, applied to the retrieved rows: context
block, personalized prompt, message assembly, generation call and the
success response. -/
def respondWith (question : String) (profile : Option OwnerProfile) (llm : LlmOutcome)
    (faqs : List DbFaq) (calls : List GCall) : ChatOutcome :=
  let contextMessage := if faqs.isEmpty then "" else contextBlock faqs
  let name := ownerNameOf profile
  let ctx := ownerCtxOf profile
  let systemPrompt :=
    if faqs.isEmpty then promptNoContext name ctx else promptWithContext name ctx
  let messages :=
    Msg.mk "system" systemPrompt ::
      ((if contextMessage = "" then [] else [Msg.mk "system" contextMessage])
        ++ [Msg.mk "user" question])
  { status := 200, errorMsg := none, answer := some (answerOf llm)
    contextUsed := some (decide (0 < faqs.length)), faqsUsed := some faqs.length
    faqs := faqs, messages := messages, calls := calls ++ [GCall.llmGenerate] }

/-- Step 3 of the handler: the semantic store read when the post-filter id
list is non-empty (an empty list when that read throws), the recency
fallback read when it is empty (an empty list when that read throws),
followed by the response assembly. -/
def retrieveAndRespond (db : Db) (question oid : String) (profile : Option OwnerProfile)
    (ids : List Nat) (byIdsFails recentFails : Bool) (llm : LlmOutcome)
    (calls : List GCall) : ChatOutcome :=
  if ids.isEmpty then
    respondWith question profile llm (if recentFails then [] else faqGetRecent db oid 5)
      (calls ++ [GCall.faqRecent])
  else
    respondWith question profile llm (if byIdsFails then [] else faqGetByIds db ids oid)
      (calls ++ [GCall.faqByIds])

/-- Steps 1 to 2.5 of the handler once the owner is resolved: the embedding
call (any failure is a 500 error response), the vector search (a thrown
error becomes an empty match list), and the tenant filter. -/
def afterResolve (db : Db) (o : Oracle) (question oid : String)
    (profile : Option OwnerProfile) (calls : List GCall) : ChatOutcome :=
  match o.embed with
  | EmbedOutcome.ok _vec =>
    retrieveAndRespond db question oid profile
      (filterIds (matchesOf o.search) oid) o.byIdsFails o.recentFails o.llm
      (calls ++ [GCall.embedText, GCall.vectorSearch])
  | _ => errOutcome 500 "Failed to generate embedding" (calls ++ [GCall.embedText])

/-- The full handler `handleChatbotQuery` of `chatbotService.ts`. -/
def handleChatbotQuery (db : Db) (o : Oracle) (req : ChatReq) : ChatOutcome :=
  let question := questionOf req
  if jsTrim question = "" then errOutcome 400 "Question is required" []
  else
    match resolveOwner db req with
    | ResolveR.notFound => errOutcome 404 "Chatbot owner not found" [GCall.userByUsername]
    | ResolveR.missing calls => errOutcome 400 "userId or username is required" calls
    | ResolveR.ok oid profile calls => afterResolve db o question oid profile calls

/-- Concrete tenant row used by the C1 scenario (tenant `carol`, id 7). -/
def c1user : DbUser := DbUser.mk 7 "carol@x.com" "carol" (some "Carol") none none

/-- Concrete database of the C1 scenario: tenant 7 owns five entries. -/
def c1db : Db :=
  Db.mk [c1user]
    [DbFaq.mk 1 7 "q1" "a1" 1, DbFaq.mk 2 7 "q2" "a2" 2, DbFaq.mk 3 7 "q3" "a3" 3,
     DbFaq.mk 4 7 "q4" "a4" 4, DbFaq.mk 5 7 "q5" "a5" 5]

/-- Concrete oracle of the C1 scenario: the embedding call times out. -/
def c1o : Oracle :=
  Oracle.mk EmbedOutcome.errored (SearchOutcome.ok []) false false (LlmOutcome.ok (some "x"))

/-- Concrete request of the C1 scenario. -/
def c1req : ChatReq := ChatReq.mk (some "how do I reset") none (some "7") none

/-- Concrete database of the C2 scenario: tenant 7 owns entries 1 and 2. -/
def c2db : Db :=
  Db.mk [DbUser.mk 7 "c@x.com" "carol" none none none]
    [DbFaq.mk 1 7 "q1" "a1" 10, DbFaq.mk 2 7 "q2" "a2" 20]

/-- Concrete oracle of the C2 scenario: the search ranks entry 2 (score 90)
above entry 1 (score 50), both owned by tenant 7. -/
def c2o : Oracle :=
  Oracle.mk (EmbedOutcome.ok [1])
    (SearchOutcome.ok [VMatch.mk 2 90 (some "7"), VMatch.mk 1 50 (some "7")])
    false false (LlmOutcome.ok (some "x"))

/-- Concrete request of the C2 scenario. -/
def c2req : ChatReq := ChatReq.mk (some "hi") none (some "7") none

/-- Concrete database of the C3 witness: tenant 7 owns entry 1. -/
def c3db : Db :=
  Db.mk [DbUser.mk 7 "c@x.com" "carol" none none none] [DbFaq.mk 1 7 "q1" "a1" 10]

/-- Concrete oracle of the C3 witness: the index reports entry 1 with correct
metadata and an alien entry 9 with wrong-tenant metadata. -/
def c3o : Oracle :=
  Oracle.mk (EmbedOutcome.ok [1])
    (SearchOutcome.ok [VMatch.mk 9 95 (some "8"), VMatch.mk 1 50 (some "7")])
    false false (LlmOutcome.ok (some "x"))

/-- Concrete request of the C3 witness. -/
def c3req : ChatReq := ChatReq.mk (some "hi") none (some "7") none

/-- The entry the C3 witness finds in the retrieval result. -/
def c3faq : DbFaq := DbFaq.mk 1 7 "q1" "a1" 10

/-- Concrete database of the C4 scenario: only tenant 7 exists. -/
def c4db : Db := Db.mk [DbUser.mk 7 "c@x.com" "carol" none none none] []

/-- Concrete oracle of the C4 scenario: every external call succeeds. -/
def c4o : Oracle :=
  Oracle.mk (EmbedOutcome.ok [1]) (SearchOutcome.ok []) false false (LlmOutcome.ok (some "x"))

/-- Concrete request of the C4 scenario: explicit tenant id 99, which no
`Users` row carries. -/
def c4req : ChatReq := ChatReq.mk (some "hi") none (some "99") none

/-- Concrete database of the C5 witness: tenant 7 owns three entries, entry 9
belongs to tenant 8. -/
def c5db : Db :=
  Db.mk [DbUser.mk 7 "c@x.com" "carol" none none none]
    [DbFaq.mk 1 7 "q1" "a1" 10, DbFaq.mk 2 7 "q2" "a2" 30, DbFaq.mk 3 7 "q3" "a3" 20,
     DbFaq.mk 9 8 "q9" "a9" 99]

/-- Concrete oracle of the C5 witness: the search returns only an
other-tenant candidate, so filtering yields zero ids. -/
def c5o : Oracle :=
  Oracle.mk (EmbedOutcome.ok [1]) (SearchOutcome.ok [VMatch.mk 9 80 (some "8")])
    false false (LlmOutcome.ok (some "x"))

/-- Concrete request of the C5 witness. -/
def c5req : ChatReq := ChatReq.mk (some "hi") none (some "7") none

/-- Concrete database of the C8 witness: tenant 7 exists with zero entries;
entry 9 belongs to tenant 8. -/
def c8db : Db :=
  Db.mk [DbUser.mk 7 "bob@x.com" "bob" (some "Bob") none none] [DbFaq.mk 9 8 "q9" "a9" 99]

/-- Concrete oracle of the C8 witness: every external call succeeds, and the
index even reports the alien entry with wrong metadata. -/
def c8o : Oracle :=
  Oracle.mk (EmbedOutcome.ok [1]) (SearchOutcome.ok [VMatch.mk 9 80 (some "7")])
    false false (LlmOutcome.ok (some "x"))

/-- Concrete request of the C8 witness. -/
def c8req : ChatReq := ChatReq.mk (some "anything") none (some "7") none

/-- Concrete database of the C9 witness: the store has no rows at all, while
the index still reports entry 5 for tenant 7 (store/index divergence). -/
def c9db : Db := Db.mk [DbUser.mk 7 "c@x.com" "carol" none none none] []

/-- Concrete oracle of the C9 witness. -/
def c9o : Oracle :=
  Oracle.mk (EmbedOutcome.ok [1]) (SearchOutcome.ok [VMatch.mk 5 70 (some "7")])
    false false (LlmOutcome.ok (some "x"))

/-- Concrete request of the C9 witness. -/
def c9req : ChatReq := ChatReq.mk (some "hi") none (some "7") none

/-- Concrete database of the C10 witness: tenant 7 has a profile row and one
entry. -/
def c10db : Db :=
  Db.mk [DbUser.mk 7 "c@x.com" "carol" (some "Carol") none (some "my bio")]
    [DbFaq.mk 1 7 "q1" "a1" 10]

/-- Concrete oracle of the C10 witness. -/
def c10o : Oracle :=
  Oracle.mk (EmbedOutcome.ok [1]) (SearchOutcome.ok []) false false (LlmOutcome.ok (some "x"))

/-- Concrete request of the C10 witness: both an explicit tenant id and a
handle are supplied. -/
def c10req : ChatReq := ChatReq.mk (some "hi") none (some "7") (some "carol")

/-- Every row returned by the semantic store read belongs to the bound tenant. -/
theorem mem_faqGetByIds {db : Db} {ids : List Nat} {oid : String} {f : DbFaq}
    (h : f ∈ faqGetByIds db ids oid) : idMatch oid f.user_id = true := by
  unfold faqGetByIds at h
  rw [List.mem_insertionSort] at h
  have hp := (List.mem_filter.mp h).2
  exact (Bool.and_eq_true _ _).mp hp |>.2

/-- Every row returned by the fallback store read belongs to the bound tenant. -/
theorem mem_faqGetRecent {db : Db} {oid : String} {n : Nat} {f : DbFaq}
    (h : f ∈ faqGetRecent db oid n) : idMatch oid f.user_id = true := by
  unfold faqGetRecent at h
  have h2 := List.mem_of_mem_take h
  rw [List.mem_insertionSort] at h2
  exact (List.mem_filter.mp h2).2

/-- The semantic store read is sorted by ascending `faq_id`. -/
theorem sorted_faqGetByIds (db : Db) (ids : List Nat) (oid : String) :
    List.Sorted faqIdLe (faqGetByIds db ids oid) :=
  List.sorted_insertionSort faqIdLe _

/-- The fallback store read is sorted by descending creation time. -/
theorem sorted_faqGetRecent (db : Db) (oid : String) (n : Nat) :
    List.Sorted recencyGe (faqGetRecent db oid n) :=
  List.Pairwise.sublist (List.take_sublist n _) (List.sorted_insertionSort recencyGe _)

/-- The fallback store read returns at most `n` rows. -/
theorem length_faqGetRecent_le (db : Db) (oid : String) (n : Nat) :
    (faqGetRecent db oid n).length ≤ n :=
  List.length_take_le n _

/-- A tenant with no rows in the `FAQs` table gets an empty semantic read. -/
theorem faqGetByIds_eq_nil {db : Db} {oid : String}
    (h : ∀ f ∈ db.faqs, idMatch oid f.user_id = false) (ids : List Nat) :
    faqGetByIds db ids oid = [] := by
  unfold faqGetByIds
  have : db.faqs.filter (fun r => ids.contains r.faq_id && idMatch oid r.user_id) = [] := by
    rw [List.filter_eq_nil_iff]
    intro a ha
    simp [h a ha]
  rw [this]
  rfl

/-- A tenant with no rows in the `FAQs` table gets an empty fallback read. -/
theorem faqGetRecent_eq_nil {db : Db} {oid : String}
    (h : ∀ f ∈ db.faqs, idMatch oid f.user_id = false) (n : Nat) :
    faqGetRecent db oid n = [] := by
  unfold faqGetRecent
  have : db.faqs.filter (fun r => idMatch oid r.user_id) = [] := by
    rw [List.filter_eq_nil_iff]
    intro a ha
    simp [h a ha]
  rw [this]
  simp [List.insertionSort]

/-- The call trace produced by tenant resolution is one of three fixed lists. -/
theorem resolveOwner_ok_calls {db : Db} {req : ChatReq} {oid : String}
    {p : Option OwnerProfile} {c : List GCall}
    (h : resolveOwner db req = ResolveR.ok oid p c) :
    c = [] ∨ c = [GCall.userByUsername] ∨ c = [GCall.userById] := by
  unfold resolveOwner at h
  split at h
  · split at h
    · cases h
    · split at h
      · cases h
      · cases h
        exact Or.inr (Or.inl rfl)
  · split at h
    · cases h
      exact Or.inr (Or.inr rfl)
    · cases h
      exact Or.inr (Or.inr rfl)
  · cases h
    exact Or.inl rfl
  · cases h

/-- The response assembly always reports HTTP success. -/
theorem respondWith_status (q : String) (p : Option OwnerProfile) (llm : LlmOutcome)
    (faqs : List DbFaq) (calls : List GCall) :
    (respondWith q p llm faqs calls).status = 200 := rfl

/-- The response assembly carries no error message. -/
theorem respondWith_errorMsg (q : String) (p : Option OwnerProfile) (llm : LlmOutcome)
    (faqs : List DbFaq) (calls : List GCall) :
    (respondWith q p llm faqs calls).errorMsg = none := rfl

/-- The response assembly returns exactly the retrieved rows. -/
theorem respondWith_faqs (q : String) (p : Option OwnerProfile) (llm : LlmOutcome)
    (faqs : List DbFaq) (calls : List GCall) :
    (respondWith q p llm faqs calls).faqs = faqs := rfl

/-- The response assembly appends only the generation call to the trace. -/
theorem respondWith_calls (q : String) (p : Option OwnerProfile) (llm : LlmOutcome)
    (faqs : List DbFaq) (calls : List GCall) :
    (respondWith q p llm faqs calls).calls = calls ++ [GCall.llmGenerate] := rfl

/-- The context flag is exactly non-emptiness of the retrieved rows. -/
theorem respondWith_contextUsed (q : String) (p : Option OwnerProfile) (llm : LlmOutcome)
    (faqs : List DbFaq) (calls : List GCall) :
    (respondWith q p llm faqs calls).contextUsed = some (decide (0 < faqs.length)) := rfl

/-- The entry count is exactly the number of retrieved rows. -/
theorem respondWith_faqsUsed (q : String) (p : Option OwnerProfile) (llm : LlmOutcome)
    (faqs : List DbFaq) (calls : List GCall) :
    (respondWith q p llm faqs calls).faqsUsed = some faqs.length := rfl

/-- With zero retrieved rows the composed sequence is exactly the apologetic
system prompt followed by the user question: no context block is emitted. -/
theorem respondWith_messages_nil (q : String) (p : Option OwnerProfile) (llm : LlmOutcome)
    (calls : List GCall) :
    (respondWith q p llm [] calls).messages =
      [Msg.mk "system" (promptNoContext (ownerNameOf p) (ownerCtxOf p)), Msg.mk "user" q] := by
  simp [respondWith]

/-- The first composed message is always the personalized system prompt, in
the variant selected by emptiness of the retrieved rows. -/
theorem respondWith_messages_head (q : String) (p : Option OwnerProfile) (llm : LlmOutcome)
    (faqs : List DbFaq) (calls : List GCall) :
    (respondWith q p llm faqs calls).messages.head? = some (Msg.mk "system"
      (if faqs.isEmpty then promptNoContext (ownerNameOf p) (ownerCtxOf p)
       else promptWithContext (ownerNameOf p) (ownerCtxOf p))) := by
  simp [respondWith]

/-- On the success path the handler is the response assembly applied to the
tenant-filtered search result, with the trace extended by the embedding and
search calls. -/
theorem handle_ok (db : Db) (o : Oracle) (req : ChatReq) (oid : String)
    (profile : Option OwnerProfile) (calls0 : List GCall) (v : List Int)
    (hq : ¬ jsTrim (questionOf req) = "")
    (hr : resolveOwner db req = ResolveR.ok oid profile calls0)
    (hv : o.embed = EmbedOutcome.ok v) :
    handleChatbotQuery db o req =
      retrieveAndRespond db (questionOf req) oid profile
        (filterIds (matchesOf o.search) oid) o.byIdsFails o.recentFails o.llm
        (calls0 ++ [GCall.embedText, GCall.vectorSearch]) := by
  simp [handleChatbotQuery, afterResolve, hq, hr, hv]

/-- C7: a question that is empty (or whitespace-only) after trimming yields the
client error `Question is required` and the request performs no gateway call at
all: no tenant lookup, no embedding, no vector search, no store read, no
generation call (the call trace is empty). -/
theorem c7_empty_question_no_calls (db : Db) (o : Oracle) (req : ChatReq)
    (hq : jsTrim (questionOf req) = "") :
    handleChatbotQuery db o req = errOutcome 400 "Question is required" [] := by
  simp [handleChatbotQuery, hq]

/-- C7 witness: a whitespace-only question on a populated database. -/
theorem c7_witness :
    handleChatbotQuery (Db.mk [DbUser.mk 7 "a@b.c" "alice" none none none] [DbFaq.mk 1 7 "q" "a" 1])
        (Oracle.mk (EmbedOutcome.ok [1]) (SearchOutcome.ok []) false false (LlmOutcome.ok (some "x")))
        (ChatReq.mk (some "   ") none (some "7") none) =
      errOutcome 400 "Question is required" [] :=
  c7_empty_question_no_calls _ _ _ (by decide)

/-- C6: a thrown vector-search call is treated exactly as an empty candidate
list: the outcome of the request with a failing search equals, in every field
(status, answer, retrieved entries, messages, call trace), the outcome of the
same request whose search succeeded with zero candidates; in particular no
error is propagated and the request continues into the fallback path. -/
theorem c6_search_failure_as_empty (db : Db) (o : Oracle) (req : ChatReq)
    (h : o.search = SearchOutcome.errored) :
    handleChatbotQuery db o req =
      handleChatbotQuery db { o with search := SearchOutcome.ok [] } req := by
  simp [handleChatbotQuery, afterResolve, matchesOf, h]

/-- C6 witness: a failing search behaves as zero candidates on a concrete
request, and that request falls through to the recency read. -/
theorem c6_witness :
    handleChatbotQuery (Db.mk [DbUser.mk 7 "a@b.c" "alice" none none none] [DbFaq.mk 1 7 "q" "a" 1])
        (Oracle.mk (EmbedOutcome.ok [1]) SearchOutcome.errored false false (LlmOutcome.ok (some "x")))
        (ChatReq.mk (some "hi") none (some "7") none) =
      handleChatbotQuery (Db.mk [DbUser.mk 7 "a@b.c" "alice" none none none] [DbFaq.mk 1 7 "q" "a" 1])
        { Oracle.mk (EmbedOutcome.ok [1]) SearchOutcome.errored false false (LlmOutcome.ok (some "x")) with
            search := SearchOutcome.ok [] }
        (ChatReq.mk (some "hi") none (some "7") none) :=
  c6_search_failure_as_empty _ _ _ rfl

/-- C1 counterexample: tenant 7 has five entries and the embedding call times
out, yet the engine returns the 500 embedding error with an empty entry list
instead of the non-empty `getRecent` fallback the claim promises. -/
theorem c1_counterexample :
    (handleChatbotQuery c1db c1o c1req).status = 500 ∧
    (handleChatbotQuery c1db c1o c1req).errorMsg = some "Failed to generate embedding" ∧
    (handleChatbotQuery c1db c1o c1req).faqs = [] ∧
    faqGetRecent c1db "7" 5 ≠ [] ∧
    (handleChatbotQuery c1db c1o c1req).faqs ≠ faqGetRecent c1db "7" 5 := by
  decide

/-- C1 amended: for every request with a valid question and resolvable tenant,
if the embedding call fails (no vector data, an async/deferred handle, or an
error/timeout), the engine does not retry but it also does not fall back: it
returns the server error `Failed to generate embedding`, with no semantic
search, no store read and no generation call (the trace stops at the
embedding call) and an empty entry list. -/
theorem c1_amended_embedding_failure_is_error (db : Db) (o : Oracle) (req : ChatReq)
    (oid : String) (profile : Option OwnerProfile) (calls0 : List GCall)
    (hq : ¬ jsTrim (questionOf req) = "")
    (hr : resolveOwner db req = ResolveR.ok oid profile calls0)
    (he : o.embed = EmbedOutcome.asyncResp ∨ o.embed = EmbedOutcome.noData ∨
      o.embed = EmbedOutcome.errored) :
    handleChatbotQuery db o req =
      errOutcome 500 "Failed to generate embedding" (calls0 ++ [GCall.embedText]) := by
  rcases he with he | he | he <;> simp [handleChatbotQuery, afterResolve, hq, hr, he]

/-- C1 witness: the amended statement at the concrete C1 scenario. -/
theorem c1_witness :
    handleChatbotQuery c1db c1o c1req =
      errOutcome 500 "Failed to generate embedding" ([GCall.userById] ++ [GCall.embedText]) :=
  c1_amended_embedding_failure_is_error c1db c1o c1req "7" (some (profileFromRow c1user))
    [GCall.userById] (by decide) (by decide) (Or.inr (Or.inr rfl))

/-- C4 counterexample: the explicit tenant id 99 resolves to no existing
tenant, yet the engine does not return a not-found error: it answers with a
success and even performs the fallback store read. -/
theorem c4_counterexample :
    (handleChatbotQuery c4db c4o c4req).status = 200 ∧
    (handleChatbotQuery c4db c4o c4req).errorMsg = none ∧
    GCall.faqRecent ∈ (handleChatbotQuery c4db c4o c4req).calls := by
  decide

/-- C4 amended: only a tenant handle is checked for existence: a request whose
handle resolves to no tenant receives the not-found error and performs no
retrieval (its only gateway call is the tenant lookup); an explicit tenant id,
in contrast, is taken as is and never produces a not-found error. -/
theorem c4_amended_handle_not_found (db : Db) (o : Oracle) (req : ChatReq) (uname : String)
    (hq : ¬ jsTrim (questionOf req) = "")
    (h1 : strTruthy req.userId = none)
    (h2 : strTruthy req.username = some uname)
    (h3 : getUserByUsername db uname = none) :
    handleChatbotQuery db o req =
      errOutcome 404 "Chatbot owner not found" [GCall.userByUsername] := by
  simp [handleChatbotQuery, resolveOwner, hq, h1, h2, h3]

/-- C4 witness: the amended statement at a concrete unknown handle. -/
theorem c4_witness :
    handleChatbotQuery c4db c4o (ChatReq.mk (some "hi") none none (some "ghost")) =
      errOutcome 404 "Chatbot owner not found" [GCall.userByUsername] :=
  c4_amended_handle_not_found c4db c4o (ChatReq.mk (some "hi") none none (some "ghost"))
    "ghost" (by decide) (by decide) (by decide) (by decide)

/-- C2 counterexample: the search ranks entry 2 (score 90) above entry 1
(score 50), both surviving the tenant filter, yet the semantic retrieval
result comes back as entries [1, 2]: the store lookup reorders by entry id
and does not preserve the descending-similarity order [2, 1]. -/
theorem c2_counterexample :
    GCall.faqByIds ∈ (handleChatbotQuery c2db c2o c2req).calls ∧
    (handleChatbotQuery c2db c2o c2req).faqs.map (fun f => f.faq_id) = [1, 2] ∧
    ((matchesOf c2o.search).filter (fun m => m.metadata == some "7")).map (fun m => m.id)
      = [2, 1] ∧
    (handleChatbotQuery c2db c2o c2req).faqs.map (fun f => f.faq_id) ≠
      ((matchesOf c2o.search).filter (fun m => m.metadata == some "7")).map (fun m => m.id) := by
  decide

/-- C2 amended: for every request where the semantic path is taken (at least
one same-tenant vector match survives filtering), the retrieval result is the
store read over the surviving ids (empty if that read throws), and it is
ordered by ascending entry id — the `ORDER BY faq_id` of the store lookup,
not the vector search's similarity ranking. -/
theorem c2_amended_semantic_result_ordered_by_entry_id (db : Db) (o : Oracle) (req : ChatReq)
    (oid : String) (profile : Option OwnerProfile) (calls0 : List GCall) (v : List Int)
    (hq : ¬ jsTrim (questionOf req) = "")
    (hr : resolveOwner db req = ResolveR.ok oid profile calls0)
    (hv : o.embed = EmbedOutcome.ok v)
    (hids : filterIds (matchesOf o.search) oid ≠ []) :
    (handleChatbotQuery db o req).faqs =
      (if o.byIdsFails then [] else faqGetByIds db (filterIds (matchesOf o.search) oid) oid) ∧
    List.Sorted faqIdLe (handleChatbotQuery db o req).faqs := by
  rw [handle_ok db o req oid profile calls0 v hq hr hv, retrieveAndRespond,
    if_neg (by simp [hids]), respondWith_faqs]
  refine ⟨rfl, ?_⟩
  cases o.byIdsFails
  · simpa using sorted_faqGetByIds db (filterIds (matchesOf o.search) oid) oid
  · simp

/-- C2 witness: the amended statement at the concrete C2 scenario. -/
theorem c2_witness :
    (handleChatbotQuery c2db c2o c2req).faqs =
      (if c2o.byIdsFails then []
       else faqGetByIds c2db (filterIds (matchesOf c2o.search) "7") "7") ∧
    List.Sorted faqIdLe (handleChatbotQuery c2db c2o c2req).faqs :=
  c2_amended_semantic_result_ordered_by_entry_id c2db c2o c2req "7"
    (some (profileFromRow (DbUser.mk 7 "c@x.com" "carol" none none none)))
    [GCall.userById] [1] (by decide) (by decide) rfl (by decide)

/-- C3: every entry in the final retrieval result is owned by the resolved
tenant, whatever candidate list the vector gateway returned (wrong, missing
or other-tenant metadata included): the metadata filter and the store read's
own tenant restriction guarantee `idMatch` for every returned row. -/
theorem c3_tenant_isolation (db : Db) (o : Oracle) (req : ChatReq) (f : DbFaq)
    (hf : f ∈ (handleChatbotQuery db o req).faqs) :
    ∃ oid profile calls0, resolveOwner db req = ResolveR.ok oid profile calls0 ∧
      idMatch oid f.user_id = true := by
  by_cases hq : jsTrim (questionOf req) = ""
  · simp [handleChatbotQuery, hq, errOutcome] at hf
  · cases hres : resolveOwner db req with
    | notFound => simp [handleChatbotQuery, hq, hres, errOutcome] at hf
    | missing c => simp [handleChatbotQuery, hq, hres, errOutcome] at hf
    | ok oid p c =>
      refine ⟨oid, p, c, rfl, ?_⟩
      cases hv : o.embed with
      | ok v =>
        rw [handle_ok db o req oid p c v hq hres hv, retrieveAndRespond] at hf
        by_cases hie : (filterIds (matchesOf o.search) oid).isEmpty
        · rw [if_pos hie, respondWith_faqs] at hf
          cases hrf : o.recentFails with
          | false =>
            rw [hrf] at hf
            simp only [Bool.false_eq_true, if_false] at hf
            exact mem_faqGetRecent hf
          | true =>
            rw [hrf] at hf
            simp at hf
        · rw [if_neg hie, respondWith_faqs] at hf
          cases hbf : o.byIdsFails with
          | false =>
            rw [hbf] at hf
            simp only [Bool.false_eq_true, if_false] at hf
            exact mem_faqGetByIds hf
          | true =>
            rw [hbf] at hf
            simp at hf
      | asyncResp => simp [handleChatbotQuery, afterResolve, hq, hres, hv, errOutcome] at hf
      | noData => simp [handleChatbotQuery, afterResolve, hq, hres, hv, errOutcome] at hf
      | errored => simp [handleChatbotQuery, afterResolve, hq, hres, hv, errOutcome] at hf

/-- C3 witness: the isolation statement at a concrete request whose index
reports an alien candidate with other-tenant metadata. -/
theorem c3_witness :
    c3faq ∈ (handleChatbotQuery c3db c3o c3req).faqs ∧
    (∃ oid profile calls0, resolveOwner c3db c3req = ResolveR.ok oid profile calls0 ∧
      idMatch oid c3faq.user_id = true) :=
  ⟨by decide, c3_tenant_isolation c3db c3o c3req c3faq (by decide)⟩

/-- C5: when the tenant filter leaves zero ids (index empty, other-tenant
matches only, or a failed search) and the fallback read succeeds, the
retrieval result equals the tenant's most recent entries, newest first,
bounded by the same maximum count 5 as the semantic path; the response
contains only this recency-ordered list, never a mixture. -/
theorem c5_zero_ids_fallback_equals_recent (db : Db) (o : Oracle) (req : ChatReq)
    (oid : String) (profile : Option OwnerProfile) (calls0 : List GCall) (v : List Int)
    (hq : ¬ jsTrim (questionOf req) = "")
    (hr : resolveOwner db req = ResolveR.ok oid profile calls0)
    (hv : o.embed = EmbedOutcome.ok v)
    (hids : filterIds (matchesOf o.search) oid = [])
    (hrf : o.recentFails = false) :
    (handleChatbotQuery db o req).faqs = faqGetRecent db oid 5 ∧
    List.Sorted recencyGe (handleChatbotQuery db o req).faqs ∧
    (handleChatbotQuery db o req).faqs.length ≤ 5 := by
  have h1 : (handleChatbotQuery db o req).faqs = faqGetRecent db oid 5 := by
    rw [handle_ok db o req oid profile calls0 v hq hr hv, hids, retrieveAndRespond]
    simp [respondWith_faqs, hrf]
  refine ⟨h1, ?_, ?_⟩
  · rw [h1]
    exact sorted_faqGetRecent db oid 5
  · rw [h1]
    exact length_faqGetRecent_le db oid 5

/-- C5 witness: the fallback statement at the concrete C5 scenario, where the
only candidate belongs to another tenant. -/
theorem c5_witness :
    (handleChatbotQuery c5db c5o c5req).faqs = faqGetRecent c5db "7" 5 ∧
    List.Sorted recencyGe (handleChatbotQuery c5db c5o c5req).faqs ∧
    (handleChatbotQuery c5db c5o c5req).faqs.length ≤ 5 :=
  c5_zero_ids_fallback_equals_recent c5db c5o c5req "7"
    (some (profileFromRow (DbUser.mk 7 "c@x.com" "carol" none none none)))
    [GCall.userById] [1] (by decide) (by decide) rfl (by decide) rfl

/-- C8: a valid request for a tenant owning zero knowledge entries succeeds:
status 200 with no error, `contextUsed` false, zero entries used, and the
composed sequence is exactly the apologetic system-prompt variant followed by
the user question — no context block is emitted. -/
theorem c8_empty_tenant_success (db : Db) (o : Oracle) (req : ChatReq)
    (oid : String) (profile : Option OwnerProfile) (calls0 : List GCall) (v : List Int)
    (hq : ¬ jsTrim (questionOf req) = "")
    (hr : resolveOwner db req = ResolveR.ok oid profile calls0)
    (hv : o.embed = EmbedOutcome.ok v)
    (hnone : ∀ f ∈ db.faqs, idMatch oid f.user_id = false) :
    (handleChatbotQuery db o req).status = 200 ∧
    (handleChatbotQuery db o req).errorMsg = none ∧
    (handleChatbotQuery db o req).contextUsed = some false ∧
    (handleChatbotQuery db o req).faqsUsed = some 0 ∧
    (handleChatbotQuery db o req).faqs = [] ∧
    (handleChatbotQuery db o req).messages =
      [Msg.mk "system" (promptNoContext (ownerNameOf profile) (ownerCtxOf profile)),
       Msg.mk "user" (questionOf req)] := by
  rw [handle_ok db o req oid profile calls0 v hq hr hv, retrieveAndRespond]
  by_cases hie : (filterIds (matchesOf o.search) oid).isEmpty
  · rw [if_pos hie]
    have hfa : (if o.recentFails then [] else faqGetRecent db oid 5) = [] := by
      cases o.recentFails <;> simp [faqGetRecent_eq_nil hnone]
    rw [hfa]
    exact ⟨rfl, rfl, rfl, rfl, rfl, respondWith_messages_nil _ _ _ _⟩
  · rw [if_neg hie]
    have hfb : (if o.byIdsFails then []
        else faqGetByIds db (filterIds (matchesOf o.search) oid) oid) = [] := by
      cases o.byIdsFails <;> simp [faqGetByIds_eq_nil hnone]
    rw [hfb]
    exact ⟨rfl, rfl, rfl, rfl, rfl, respondWith_messages_nil _ _ _ _⟩

/-- C8 witness: tenant 7 owns no entry (the only stored row belongs to tenant
8), every external call succeeds, and the response is the apologetic success. -/
theorem c8_witness :
    (handleChatbotQuery c8db c8o c8req).status = 200 ∧
    (handleChatbotQuery c8db c8o c8req).errorMsg = none ∧
    (handleChatbotQuery c8db c8o c8req).contextUsed = some false ∧
    (handleChatbotQuery c8db c8o c8req).faqsUsed = some 0 ∧
    (handleChatbotQuery c8db c8o c8req).faqs = [] ∧
    (handleChatbotQuery c8db c8o c8req).messages =
      [Msg.mk "system" (promptNoContext
          (ownerNameOf (some (profileFromRow (DbUser.mk 7 "bob@x.com" "bob" (some "Bob") none none))))
          (ownerCtxOf (some (profileFromRow (DbUser.mk 7 "bob@x.com" "bob" (some "Bob") none none))))),
       Msg.mk "user" (questionOf c8req)] :=
  c8_empty_tenant_success c8db c8o c8req "7"
    (some (profileFromRow (DbUser.mk 7 "bob@x.com" "bob" (some "Bob") none none)))
    [GCall.userById] [1] (by decide) (by decide) rfl (by decide)

/-- C9: the recency fallback is triggered solely by the post-filter id list
being empty: when at least one id survives filtering but the store read over
those ids throws or returns zero rows, the recency read is never called and
the result is an empty entry list with `contextUsed` false. -/
theorem c9_semantic_miss_no_recency_fallback (db : Db) (o : Oracle) (req : ChatReq)
    (oid : String) (profile : Option OwnerProfile) (calls0 : List GCall) (v : List Int)
    (hq : ¬ jsTrim (questionOf req) = "")
    (hr : resolveOwner db req = ResolveR.ok oid profile calls0)
    (hv : o.embed = EmbedOutcome.ok v)
    (hids : filterIds (matchesOf o.search) oid ≠ [])
    (hmiss : o.byIdsFails = true ∨
      faqGetByIds db (filterIds (matchesOf o.search) oid) oid = []) :
    GCall.faqRecent ∉ (handleChatbotQuery db o req).calls ∧
    (handleChatbotQuery db o req).faqs = [] ∧
    (handleChatbotQuery db o req).contextUsed = some false := by
  have hfb : (if o.byIdsFails then []
      else faqGetByIds db (filterIds (matchesOf o.search) oid) oid) = [] := by
    rcases hmiss with h | h
    · rw [h]
      simp
    · cases o.byIdsFails <;> simp [h]
  rw [handle_ok db o req oid profile calls0 v hq hr hv, retrieveAndRespond,
    if_neg (by simp [hids]), hfb]
  refine ⟨?_, rfl, rfl⟩
  rw [respondWith_calls]
  rcases resolveOwner_ok_calls hr with h0 | h0 | h0 <;> subst h0 <;> decide

/-- C9 witness: the index reports entry 5 for tenant 7, but the store has no
such row: the semantic read returns zero rows and no recency read happens. -/
theorem c9_witness :
    GCall.faqRecent ∉ (handleChatbotQuery c9db c9o c9req).calls ∧
    (handleChatbotQuery c9db c9o c9req).faqs = [] ∧
    (handleChatbotQuery c9db c9o c9req).contextUsed = some false :=
  c9_semantic_miss_no_recency_fallback c9db c9o c9req "7"
    (some (profileFromRow (DbUser.mk 7 "c@x.com" "carol" none none none)))
    [GCall.userById] [1] (by decide) (by decide) rfl (by decide) (Or.inr (by decide))

/-- C10: a request carrying both an explicit tenant id and a handle is not
rejected: it behaves exactly as the post-resolution pipeline run with the
tenant id and no profile, the handle is ignored, no tenant profile is fetched
(neither user lookup appears in the call trace), and when the request reaches
prompt composition the system prompt uses the generic placeholder name
`the owner` with no bio line. -/
theorem c10_both_identifiers_id_wins (db : Db) (o : Oracle) (req : ChatReq)
    (oid u : String)
    (hq : ¬ jsTrim (questionOf req) = "")
    (h1 : strTruthy req.userId = some oid)
    (h2 : strTruthy req.username = some u) :
    handleChatbotQuery db o req = afterResolve db o (questionOf req) oid none [] ∧
    (handleChatbotQuery db o req).errorMsg ≠ some "userId or username is required" ∧
    GCall.userByUsername ∉ (handleChatbotQuery db o req).calls ∧
    GCall.userById ∉ (handleChatbotQuery db o req).calls ∧
    ((handleChatbotQuery db o req).status = 200 →
      (handleChatbotQuery db o req).messages.head? = some (Msg.mk "system"
        (if (handleChatbotQuery db o req).faqs.isEmpty then promptNoContext "the owner" ""
         else promptWithContext "the owner" ""))) := by
  have hmain : handleChatbotQuery db o req = afterResolve db o (questionOf req) oid none [] := by
    simp [handleChatbotQuery, resolveOwner, hq, h1, h2]
  rw [hmain]
  cases hv : o.embed with
  | ok v =>
    rw [show afterResolve db o (questionOf req) oid none [] =
        retrieveAndRespond db (questionOf req) oid none
          (filterIds (matchesOf o.search) oid) o.byIdsFails o.recentFails o.llm
          ([] ++ [GCall.embedText, GCall.vectorSearch]) from by simp [afterResolve, hv]]
    rw [retrieveAndRespond]
    by_cases hie : (filterIds (matchesOf o.search) oid).isEmpty
    · rw [if_pos hie]
      refine ⟨rfl, by rw [respondWith_errorMsg]; simp, by rw [respondWith_calls]; decide,
        by rw [respondWith_calls]; decide, ?_⟩
      intro _
      rw [respondWith_messages_head, respondWith_faqs]
      rfl
    · rw [if_neg hie]
      refine ⟨rfl, by rw [respondWith_errorMsg]; simp, by rw [respondWith_calls]; decide,
        by rw [respondWith_calls]; decide, ?_⟩
      intro _
      rw [respondWith_messages_head, respondWith_faqs]
      rfl
  | asyncResp =>
    rw [show afterResolve db o (questionOf req) oid none [] =
        errOutcome 500 "Failed to generate embedding" ([] ++ [GCall.embedText]) from by
      simp [afterResolve, hv]]
    exact ⟨rfl, by decide, by decide, by decide, by decide⟩
  | noData =>
    rw [show afterResolve db o (questionOf req) oid none [] =
        errOutcome 500 "Failed to generate embedding" ([] ++ [GCall.embedText]) from by
      simp [afterResolve, hv]]
    exact ⟨rfl, by decide, by decide, by decide, by decide⟩
  | errored =>
    rw [show afterResolve db o (questionOf req) oid none [] =
        errOutcome 500 "Failed to generate embedding" ([] ++ [GCall.embedText]) from by
      simp [afterResolve, hv]]
    exact ⟨rfl, by decide, by decide, by decide, by decide⟩

/-- C10 witness: both identifiers supplied on a concrete request; the tenant
id wins and the prompt uses the placeholder name. -/
theorem c10_witness :
    handleChatbotQuery c10db c10o c10req =
      afterResolve c10db c10o (questionOf c10req) "7" none [] ∧
    (handleChatbotQuery c10db c10o c10req).errorMsg ≠ some "userId or username is required" ∧
    GCall.userByUsername ∉ (handleChatbotQuery c10db c10o c10req).calls ∧
    GCall.userById ∉ (handleChatbotQuery c10db c10o c10req).calls ∧
    ((handleChatbotQuery c10db c10o c10req).status = 200 →
      (handleChatbotQuery c10db c10o c10req).messages.head? = some (Msg.mk "system"
        (if (handleChatbotQuery c10db c10o c10req).faqs.isEmpty then
          promptNoContext "the owner" ""
         else promptWithContext "the owner" ""))) :=
  c10_both_identifiers_id_wins c10db c10o c10req "7" "carol" (by decide) rfl rfl

end IFaq
